import Mathlib

/-!
Verification of the Sublime Custom Formatter plugin (main.py).

The file shallowly embeds the plugin's substantive logic:

* the two diagnostic-position regexes
  `ERROR_PATTERN_1 = rb"\bline (?P<line>\d+)(?:.*\bcolumn (?P<column>\d+))?"` (flags `re.I`)
  and `ERROR_PATTERN_2 = rb"\b(\d+):(\d+)\b"` as executable searches over byte
  lists, with Python's leftmost-match, greedy-quantifier semantics;
* `FILENAME_PATTERN = re.compile(r"\$1(\.\w+)$", flags=re.ASCII)` applied with
  `re.match` (anchored at the start of the token; the `$` anchors the end);
* `extract_position_with_issue`, `extract_extension`, `run_shell_command`,
  `format_text`, `point_out_issue_to_user` and `RunCustomFormatterCommand.run`,
  with the external world (the temp-file path handed out by `tempfile`, the
  child process's launch/return-code/stderr behaviour, and the temp file's
  content once the child has run) supplied by an explicit environment.
-/

namespace CustomFormatter

/-- A byte of a diagnostic stream. -/
abbrev Byte := Nat

/-- ASCII digit test: the byte class matched by the regex class `\d` on bytes. -/
def isDigitByte (b : Byte) : Bool := decide (48 ≤ b ∧ b ≤ 57)

/-- ASCII word-character test: the regex class `\w` on bytes, `[0-9A-Za-z_]`,
used by the word-boundary assertion `\b`. -/
def isWordByte (b : Byte) : Bool :=
  isDigitByte b || decide (65 ≤ b ∧ b ≤ 90) || decide (97 ≤ b ∧ b ≤ 122) || decide (b = 95)

/-- ASCII lowercasing of one byte: the effect of the `re.I` flag on byte patterns. -/
def lowerByte (b : Byte) : Byte := if 65 ≤ b ∧ b ≤ 90 then b + 32 else b

/-- ASCII bytes of a string literal, for writing concrete diagnostic streams. -/
def strBytes (s : String) : List Byte := s.toList.map Char.toNat

/-- Maximal run of ASCII digits at the head of the list (the greedy `\d+`),
returned together with the remainder. -/
def digitRun : List Byte → List Byte × List Byte
  | [] => ([], [])
  | b :: bs =>
    if isDigitByte b then
      let (ds, rest) := digitRun bs
      (b :: ds, rest)
    else ([], b :: bs)

/-- Numeric value of a run of ASCII digit bytes (Python's `int()` on the digits). -/
def digitsToNat (ds : List Byte) : Nat :=
  ds.foldl (fun acc b => 10 * acc + (b - 48)) 0

/-- Case-insensitive match of the literal bytes `pat` at the head of `bs`,
returning the remainder on success. -/
def matchLiteralCI (pat bs : List Byte) : Option (List Byte) :=
  match pat, bs with
  | [], rest => some rest
  | _ :: _, [] => none
  | p :: ps, b :: bs => if lowerByte b = lowerByte p then matchLiteralCI ps bs else none

/-- The literal `line ` of `ERROR_PATTERN_1`. -/
def lineLit : List Byte := strBytes "line "

/-- The literal `column ` of `ERROR_PATTERN_1`. -/
def columnLit : List Byte := strBytes "column "

/-- The optional tail `(?:.*\bcolumn (?P<column>\d+))?` of `ERROR_PATTERN_1`.
The pattern carries `re.I` but not `re.DOTALL`, so `.` never matches a newline
(byte 10) and the search cannot leave the current line; the greedy `.*` makes
the last occurrence on the line win.  `prev` is the byte just before the
current position, for the `\b` assertion before `column`. -/
def findColumnAfter (prev : Byte) : List Byte → Option Nat
  | [] => none
  | b :: bs =>
    if b = 10 then none
    else
      let here : Option Nat :=
        if isWordByte prev then none
        else
          match matchLiteralCI columnLit (b :: bs) with
          | none => none
          | some rest =>
            match digitRun rest with
            | ([], _) => none
            | (ds, _) => some (digitsToNat ds)
      match findColumnAfter b bs with
      | some m => some m
      | none => here

/-- Attempt `ERROR_PATTERN_1` at the head of `bs` (the `\b` before `line` is
checked by the caller): the literal `line `, then the greedy `\d+`, then the
optional column tail, whose `\b` sees a digit (byte 48 stands for it) as the
previous byte when `.*` is empty.  Returns the line group and the optional
column group. -/
def matchLineAt (bs : List Byte) : Option (Nat × Option Nat) :=
  match matchLiteralCI lineLit bs with
  | none => none
  | some rest =>
    match digitRun rest with
    | ([], _) => none
    | (ds, rest2) => some (digitsToNat ds, findColumnAfter 48 rest2)

/-- `re.search` with `ERROR_PATTERN_1`: the leftmost position where the pattern
matches wins.  `prev` is the byte before the current position (a non-word
sentinel, byte 32, at the start of the text). -/
def searchLinePattern (prev : Byte) : List Byte → Option (Nat × Option Nat)
  | [] => none
  | b :: bs =>
    match (if isWordByte prev then none else matchLineAt (b :: bs)) with
    | some r => some r
    | none => searchLinePattern b bs

/-- Attempt `ERROR_PATTERN_2 = rb"\b(\d+):(\d+)\b"` at the head of `bs` (the
`\b` before the first digit is checked by the caller): a maximal digit run, a
colon (byte 58), a second maximal digit run, and a word boundary after it.
Shrinking either greedy `\d+` can never rescue a failed attempt (every byte
inside a digit run is a word byte and not a colon), so the maximal runs are
the only candidates. -/
def matchPairAt (bs : List Byte) : Option (Nat × Nat) :=
  match digitRun bs with
  | ([], _) => none
  | (ds1, rest) =>
    match rest with
    | 58 :: rest2 =>
      match digitRun rest2 with
      | ([], _) => none
      | (ds2, rest3) =>
        match rest3 with
        | [] => some (digitsToNat ds1, digitsToNat ds2)
        | c :: _ => if isWordByte c then none else some (digitsToNat ds1, digitsToNat ds2)
    | _ => none

/-- `re.search` with `ERROR_PATTERN_2`: the leftmost position where the pattern
matches wins. -/
def searchPairPattern (prev : Byte) : List Byte → Option (Nat × Nat)
  | [] => none
  | b :: bs =>
    match (if isWordByte prev then none else matchPairAt (b :: bs)) with
    | some r => some r
    | none => searchPairPattern b bs

/-- `extract_position_with_issue` from main.py: try `ERROR_PATTERN_1` first;
on a match return `(int(line), int(column or 1))` — the column defaults to 1
only when the group is absent (`b"0"` is truthy and yields 0).  Otherwise try
`ERROR_PATTERN_2`; on a match return the pair; otherwise return nothing. -/
def extract_position_with_issue (error_message : List Byte) : Option (Nat × Nat) :=
  match searchLinePattern 32 error_message with
  | some (row, col) =>
    some (row, match col with | some m => m | none => 1)
  | none =>
    match searchPairPattern 32 error_message with
    | some (row, col) => some (row, col)
    | none => none

/-- ASCII word-character test on characters: `\w` under `re.ASCII`. -/
def isWordChar (c : Char) : Bool := isWordByte c.toNat

/-- `FILENAME_PATTERN.match(item)` for
`FILENAME_PATTERN = re.compile(r"\$1(\.\w+)$", flags=re.ASCII)`.
`re.match` anchors the pattern at the start of the token, and `$` — without
`re.MULTILINE` — matches at the end of the token or just before a single
trailing newline, so the token must be `$1` followed by a dot and one or more
ASCII word characters, optionally followed by one final newline (only `\n`:
a trailing `\r` or `\r\n` does not match).  The returned group 1 is the
extension (dot included, newline excluded).  A second dot inside the tail
cannot be rescued by backtracking, since `\w` never matches a dot. -/
def filenameMatch (item : String) : Option String :=
  match item.toList with
  | '$' :: '1' :: '.' :: c :: rest =>
    let core := if rest.getLast? = some '\n' then rest.dropLast else rest
    if isWordChar c && core.all isWordChar then some (String.mk ('.' :: c :: core))
    else none
  | _ => none

/-- `extract_extension` from main.py: the group of the first token matched by
`FILENAME_PATTERN`, or the empty string when no token matches. -/
def extract_extension : List String → String
  | [] => ""
  | item :: rest =>
    match filenameMatch item with
    | some ext => ext
    | none => extract_extension rest

/-- The list comprehension in `format_text`: every token matched by
`FILENAME_PATTERN` is replaced by the temp-file path, every other token is
passed through unchanged. -/
def substitute_filename (filepath : String) (command : List String) : List String :=
  command.map fun item => if (filenameMatch item).isSome then filepath else item

/-- Behaviour of the surrounding system for one format cycle: the unique path
the `tempfile` module allocates, what `Popen` + `communicate` yield (`none`
models a launch failure such as `FileNotFoundError` for a missing binary;
otherwise the child's returncode — negative for a signal-terminated child —
and its stderr bytes), and the temp file's content once the child has run
(`none` models the child having removed the file). -/
structure Env where
  tmpPath : String
  launch : Option (Int × List Byte)
  fileAfterRun : Option String

/-- Result of `run_shell_command`: a normal return, the plugin's
`ShellNonZeroExitCode` exception carrying the stderr bytes, or a propagated
launch failure. -/
inductive ShellResult where
  | ok : ShellResult
  | nonZeroExit : List Byte → ShellResult
  | launchFailed : ShellResult
deriving DecidableEq

/-- `run_shell_command` from main.py: `ShellNonZeroExitCode(stderr)` is raised
when `process.returncode > 0` — the source compares with `> 0`, not with
`!= 0`. -/
def run_shell_command (env : Env) : ShellResult :=
  match env.launch with
  | none => ShellResult.launchFailed
  | some (rc, stderr) =>
    if rc > 0 then ShellResult.nonZeroExit stderr else ShellResult.ok

/-- Outcome of a `format_text` call: the returned text, the
`ShellNonZeroExitCode` exception with its stderr payload, a propagated launch
failure from `Popen`, or a propagated `FileNotFoundError` from reading the
temp file back after the child removed it. -/
inductive PyOutcome (α : Type) where
  | ok : α → PyOutcome α
  | shellNonZeroExitCode : List Byte → PyOutcome α
  | launchFailed : PyOutcome α
  | fileNotFound : PyOutcome α
deriving DecidableEq

/-- Whether the call returned normally. -/
def PyOutcome.isOk {α : Type} : PyOutcome α → Bool
  | PyOutcome.ok _ => true
  | _ => false

/-- Observable result of one `format_text` call: the outcome, the temp file's
state once the call has finished (`some` content iff the file still exists on
disk), and the argument vector handed to `Popen`. -/
structure FormatResult where
  outcome : PyOutcome String
  tmpFileAfter : Option String
  argv : List String

/-- `format_text` from main.py: write the text to a fresh temp file,
substitute the file's path for every `FILENAME_PATTERN` token of the command,
run the command, read the file back on success, and in the `finally` block
remove the file when `os.path.isfile` still sees it.  The pair `step` carries
the outcome of the `try` body together with the temp file's state when the
body finishes: on a launch failure the child never touched the file, so it
still holds the original text; once the child has run the file's state is
whatever the child left behind. -/
def format_text (text : String) (command : List String) (env : Env) : FormatResult :=
  let filepath := env.tmpPath
  let step : PyOutcome String × Option String :=
    match run_shell_command env with
    | ShellResult.launchFailed => (PyOutcome.launchFailed, some text)
    | ShellResult.nonZeroExit stderr => (PyOutcome.shellNonZeroExitCode stderr, env.fileAfterRun)
    | ShellResult.ok =>
      match env.fileAfterRun with
      | none => (PyOutcome.fileNotFound, none)
      | some t => (PyOutcome.ok t, some t)
  { outcome := step.1
    tmpFileAfter := if step.2.isSome then none else step.2
    argv := substitute_filename filepath command }

/-- `point_out_issue_to_user` from main.py, seen as the cursor-move request it
issues: `error.args[0]` is the stderr payload handed to
`extract_position_with_issue`; `if not position: return` fires only for
`None`, since a Python tuple — even `(0, 0)` — is truthy; otherwise the
`goto_position` command is run with `(row - 1, column - 1)` (Python integer
subtraction, which may go negative). -/
def point_out_issue_to_user (error_message : List Byte) : Option (Int × Int) :=
  match extract_position_with_issue error_message with
  | none => none
  | some (row, col) => some ((row : Int) - 1, (col : Int) - 1)

/-- Observable effect of `RunCustomFormatterCommand.run` on the view: the
buffer's final text, whether `view.replace` was performed, the cursor-move
request issued through `point_out_issue_to_user` (if any), and whether an
exception other than `ShellNonZeroExitCode` propagated out of `run`. -/
structure RunOutcome where
  finalText : String
  replaced : Bool
  cursorCmd : Option (Int × Int)
  uncaught : Bool

/-- `RunCustomFormatterCommand.run` from main.py: a missing `formatter`
setting — or an empty list, since `if not formatter` tests truthiness — is a
no-op; `ShellNonZeroExitCode` is caught and handed to
`point_out_issue_to_user`; any other exception propagates with the buffer
untouched; only the `else` branch of the `try` replaces the buffer. -/
def RunCustomFormatterCommand_run (text : String) (formatter : Option (List String))
    (env : Env) : RunOutcome :=
  match formatter with
  | none => { finalText := text, replaced := false, cursorCmd := none, uncaught := false }
  | some command =>
    if command.isEmpty then
      { finalText := text, replaced := false, cursorCmd := none, uncaught := false }
    else
      match (format_text text command env).outcome with
      | PyOutcome.ok newText =>
        { finalText := newText, replaced := true, cursorCmd := none, uncaught := false }
      | PyOutcome.shellNonZeroExitCode stderr =>
        { finalText := text, replaced := false,
          cursorCmd := point_out_issue_to_user stderr, uncaught := false }
      | PyOutcome.launchFailed =>
        { finalText := text, replaced := false, cursorCmd := none, uncaught := true }
      | PyOutcome.fileNotFound =>
        { finalText := text, replaced := false, cursorCmd := none, uncaught := true }


/-! ## Helper lemmas -/

/-- The argument vector handed to the child is the substituted command. -/
theorem format_text_argv (text : String) (command : List String) (env : Env) :
    (format_text text command env).argv = substitute_filename env.tmpPath command := rfl

/-- A command list without any `FILENAME_PATTERN` token passes through the
substitution unchanged. -/
theorem substitute_filename_of_no_match (filepath : String) (l : List String)
    (h : ∀ y ∈ l, (filenameMatch y).isSome = false) :
    substitute_filename filepath l = l := by
  induction l with
  | nil => rfl
  | cons a l ih =>
    have ha : (filenameMatch a).isSome = false := h a (by simp)
    have hl := ih fun y hy => h y (by simp [hy])
    simp only [substitute_filename, List.map_cons] at hl ⊢
    simp [ha, hl]

/-! ## Claims -/

/-- C1: the spec demands that `invoke` fail with `NonZeroExit` exactly when the
child's exit code is non-zero, negative return codes of signal-terminated
children included.  The source however tests `process.returncode > 0`, so a
negative return code — here −9, a child killed by SIGKILL — raises nothing:
`run_shell_command` returns normally and `format_text` reads the temp file
back and returns its (possibly half-written) content as a success, even
though the exception's own docstring promises a raise on any non-zero exit
code. -/
theorem c1_negative_returncode_treated_as_success :
    run_shell_command
        { tmpPath := "/tmp/f.py", launch := some (-9, strBytes "killed"),
          fileAfterRun := some "garbage" } = ShellResult.ok ∧
    (format_text "original text" ["fmt", "$1.py"]
        { tmpPath := "/tmp/f.py", launch := some (-9, strBytes "killed"),
          fileAfterRun := some "garbage" }).outcome = PyOutcome.ok "garbage" := by
  constructor
  · decide
  · decide

/-- C2: on every outcome of `format_text` — success, non-zero exit, launch
failure, or the read failing because the child removed the file — the
temporary file no longer exists once the call has returned or raised; the
`finally` block's existence guard covers the removed-file case. -/
theorem c2_tempfile_cleanup (text : String) (command : List String) (env : Env) :
    (format_text text command env).tmpFileAfter = none := by
  rcases hr : run_shell_command env with _ | stderr | _ <;>
    simp only [format_text, hr] <;>
    rcases env.fileAfterRun with _ | t <;> simp

/-- C3: whenever `format_text` does not return normally — `ShellNonZeroExitCode`
caught in `run`, or a launch failure or read failure propagating out of it —
the buffer-replacement call is never performed and the document keeps its
original text. -/
theorem c3_untouched_on_failure (text : String) (command : List String) (env : Env)
    (h : ((format_text text command env).outcome).isOk = false) :
    (RunCustomFormatterCommand_run text (some command) env).finalText = text ∧
    (RunCustomFormatterCommand_run text (some command) env).replaced = false := by
  rcases ho : (format_text text command env).outcome with t | stderr | _ | _
  · rw [ho] at h
    simp [PyOutcome.isOk] at h
  all_goals by_cases hc : command.isEmpty <;>
    simp [RunCustomFormatterCommand_run, hc, ho]

/-- C3 witness: a concrete launch failure leaves the concrete buffer text in
place. -/
theorem c3_untouched_on_failure_witness :
    (RunCustomFormatterCommand_run "original" (some ["fmt", "$1.py"])
        { tmpPath := "/tmp/f.py", launch := none, fileAfterRun := some "original" }).finalText
        = "original" ∧
    (RunCustomFormatterCommand_run "original" (some ["fmt", "$1.py"])
        { tmpPath := "/tmp/f.py", launch := none, fileAfterRun := some "original" }).replaced
        = false :=
  c3_untouched_on_failure "original" ["fmt", "$1.py"]
    { tmpPath := "/tmp/f.py", launch := none, fileAfterRun := some "original" } (by decide)

/-- C4 counterexample: the claim asserts that the `line N … column M` pairing
holds even when the column clause sits on a later line of the diagnostic, but
`ERROR_PATTERN_1` is compiled without `re.DOTALL`, so its greedy `.*` cannot
cross the newline: on `b"Error on line 10,\ncolumn 5"` the column group stays
empty and the extractor yields `(10, 1)`, not `(10, 5)`. -/
theorem c4_counterexample_newline_blocks_column :
    extract_position_with_issue (strBytes "Error on line 10,\ncolumn 5") = some (10, 1) ∧
    extract_position_with_issue (strBytes "Error on line 10,\ncolumn 5") ≠ some (10, 5) := by
  constructor
  · decide
  · decide

/-- C4 (amended): `line N` case-insensitively anywhere in the text yields row
`N`; a `column M` clause later **on the same line** yields column `M` (the
greedy `.*` picks the last such clause on that line), otherwise the column
defaults to 1 — also when the only column clause sits past a newline. -/
theorem c4_amended_line_pattern :
    extract_position_with_issue (strBytes "Error on line 10, column 5") = some (10, 5) ∧
    extract_position_with_issue (strBytes "Error on line 7") = some (7, 1) ∧
    extract_position_with_issue (strBytes "LINE 4: COLUMN 2 oops") = some (4, 2) ∧
    extract_position_with_issue (strBytes "line 2 column 3 and column 8") = some (2, 8) ∧
    extract_position_with_issue (strBytes "bad on line 3\nat column 9") = some (3, 1) := by
  exact ⟨by decide, by decide, by decide, by decide, by decide⟩

/-- C5: `ERROR_PATTERN_1` takes precedence — when it matches, its result is
used (with the column defaulting to 1); only when it fails is the diagnostic
handed to the bare `N:M` search of `ERROR_PATTERN_2`, whose result — a match,
or absence — is returned as is.  Concretely: `b"syntax error at 3:12"` yields
`(3, 12)`, `b"unexpected failure"` yields nothing, and in
`b"line 4 then 9:9"` the first pattern wins with `(4, 1)`. -/
theorem c5_locator_fallback :
    (∀ (msg : List Byte) (r : Nat) (c : Option Nat),
        searchLinePattern 32 msg = some (r, c) →
        extract_position_with_issue msg = some (r, c.getD 1)) ∧
    (∀ msg : List Byte, searchLinePattern 32 msg = none →
        extract_position_with_issue msg = searchPairPattern 32 msg) ∧
    extract_position_with_issue (strBytes "syntax error at 3:12") = some (3, 12) ∧
    extract_position_with_issue (strBytes "unexpected failure") = none ∧
    extract_position_with_issue (strBytes "line 4 then 9:9") = some (4, 1) := by
  refine ⟨?_, ?_, by decide, by decide, by decide⟩
  · intro msg r c h
    unfold extract_position_with_issue
    rw [h]
    cases c <;> rfl
  · intro msg h
    unfold extract_position_with_issue
    rw [h]
    rcases hp : searchPairPattern 32 msg with _ | ⟨r, c⟩ <;> rfl

/-- C5 witness: on a concrete diagnostic without a `line N` match, the
extractor agrees with the bare-pair search. -/
theorem c5_locator_fallback_witness :
    extract_position_with_issue (strBytes "at 3:12")
      = searchPairPattern 32 (strBytes "at 3:12") :=
  c5_locator_fallback.2.1 (strBytes "at 3:12") (by decide)

/-- C6: for a command template holding exactly one `FILENAME_PATTERN` token,
the argument vector handed to the child is the template with that token — at
whatever position — replaced by the temp file's path and every other token
unchanged. -/
theorem c6_single_slot_substitution (text : String) (env : Env)
    (pre post : List String) (slot : String)
    (hslot : (filenameMatch slot).isSome = true)
    (hpre : ∀ y ∈ pre, (filenameMatch y).isSome = false)
    (hpost : ∀ y ∈ post, (filenameMatch y).isSome = false) :
    (format_text text (pre ++ slot :: post) env).argv = pre ++ env.tmpPath :: post := by
  rw [format_text_argv]
  have h1 := substitute_filename_of_no_match env.tmpPath pre hpre
  have h2 := substitute_filename_of_no_match env.tmpPath post hpost
  simp only [substitute_filename, List.map_append, List.map_cons] at h1 h2 ⊢
  rw [h1, h2, hslot]
  simp

/-- C6 witness: a concrete template with its single slot in last position. -/
theorem c6_single_slot_substitution_witness :
    (format_text "x" (["fmt", "--verify"] ++ "$1.py" :: [])
        { tmpPath := "/tmp/f.py", launch := some (0, []), fileAfterRun := some "y" }).argv
      = ["fmt", "--verify"] ++ "/tmp/f.py" :: [] :=
  c6_single_slot_substitution "x"
    { tmpPath := "/tmp/f.py", launch := some (0, []), fileAfterRun := some "y" }
    ["fmt", "--verify"] [] "$1.py" (by decide) (by decide) (by decide)

/-- C7 counterexample: the claim caps the number of substituted tokens at one
for every template, but the list comprehension substitutes every matching
token: a template with two `$1.py` tokens puts the temp-file path into the
argument vector twice. -/
theorem c7_counterexample_two_slots_substituted :
    (format_text "t" ["fmt", "$1.py", "$1.py"]
        { tmpPath := "/tmp/f.py", launch := some (0, []), fileAfterRun := some "u" }).argv
      = ["fmt", "/tmp/f.py", "/tmp/f.py"] ∧
    ¬ ((format_text "t" ["fmt", "$1.py", "$1.py"]
        { tmpPath := "/tmp/f.py", launch := some (0, []), fileAfterRun := some "u" }).argv.count
          "/tmp/f.py" ≤ 1) := by
  constructor
  · decide
  · decide

/-- C7 (amended): every token matched by `FILENAME_PATTERN` — possibly several
— is substituted with the temp-file path, tokenwise and position-preserving;
when no token matches, the argument vector is the template unchanged, so the
temp-file path is never injected. -/
theorem c7_amended_every_slot_substituted (text : String) (env : Env)
    (command : List String) :
    ((format_text text command env).argv.length = command.length) ∧
    (∀ (i : Nat) (hi : i < command.length)
        (hi2 : i < (format_text text command env).argv.length),
      (format_text text command env).argv[i] =
        if (filenameMatch command[i]).isSome then env.tmpPath else command[i]) ∧
    ((∀ y ∈ command, (filenameMatch y).isSome = false) →
      (format_text text command env).argv = command) := by
  refine ⟨?_, ?_, ?_⟩
  · rw [format_text_argv]
    simp [substitute_filename]
  · intro i hi hi2
    simp [format_text_argv, substitute_filename]
  · intro h
    rw [format_text_argv]
    exact substitute_filename_of_no_match env.tmpPath command h

/-- C7 witness: a concrete slotless template passes through unchanged. -/
theorem c7_amended_every_slot_substituted_witness :
    (format_text "t" ["fmt", "--check"]
        { tmpPath := "/tmp/f.py", launch := some (0, []), fileAfterRun := some "u" }).argv
      = ["fmt", "--check"] :=
  (c7_amended_every_slot_substituted "t"
    { tmpPath := "/tmp/f.py", launch := some (0, []), fileAfterRun := some "u" }
    ["fmt", "--check"]).2.2 (by decide)

/-- C8 counterexample: the claim reads the placeholder pattern as anchored only
to the end of the token, so that a token merely ending in `$1.js` counts; but
`FILENAME_PATTERN` is applied with `re.match`, which also anchors it at the
start of the token: `--file=$1.js` does end with `$1.js` and still yields no
extension. -/
theorem c8_counterexample_start_anchor :
    ("$1.js".toList.isSuffixOf "--file=$1.js".toList = true) ∧
    extract_extension ["--file=$1.js"] = "" ∧
    extract_extension ["--file=$1.js"] ≠ ".js" := by
  refine ⟨by decide, by decide, by decide⟩

/-- C8 (amended): `extract_extension` yields `".py"` for the token `"$1.py"`
and `""` when no token matches; a token counts as a placeholder exactly when
it is `$1` followed by `.` and ASCII word characters, optionally closed by
one trailing newline — the pattern is anchored at the start of the token by
`re.match`, and its `$` matches at the end of the token or just before a
single final `\n` (so `"$1.py\n"` also yields `".py"`, while `"$1.py\n\n"`
and `"--file=$1.js"` do not match). -/
theorem c8_amended_extension_extraction :
    extract_extension ["prettier", "--write", "$1.py"] = ".py" ∧
    extract_extension ["prettier", "--write"] = "" ∧
    filenameMatch "--file=$1.js" = none ∧
    filenameMatch "$1.js" = some ".js" ∧
    filenameMatch "$1.py\n" = some ".py" ∧
    filenameMatch "$1.py\n\n" = none ∧
    (∀ (c : Char) (rest : List Char), isWordChar c = true → rest.all isWordChar = true →
      filenameMatch (String.mk ('$' :: '1' :: '.' :: c :: rest))
        = some (String.mk ('.' :: c :: rest)) ∧
      filenameMatch (String.mk ('$' :: '1' :: '.' :: c :: (rest ++ ['\n'])))
        = some (String.mk ('.' :: c :: rest))) := by
  refine ⟨by decide, by decide, by decide, by decide, by decide, by decide, ?_⟩
  intro c rest h1 h2
  constructor
  · have hnl : rest.getLast? ≠ some '\n' := by
      intro hl
      have hmem := List.mem_of_getLast?_eq_some hl
      have hw := List.all_eq_true.mp h2 _ hmem
      simp [isWordChar, isWordByte, isDigitByte] at hw
    unfold filenameMatch
    simp [String.toList, hnl, h1, h2]
  · unfold filenameMatch
    simp [String.toList, List.getLast?_concat, List.dropLast_concat, h1, h2]

/-- C8 witness: the general placeholder shape instantiated at `$1.py`, with
and without the trailing newline. -/
theorem c8_amended_extension_extraction_witness :
    filenameMatch (String.mk ('$' :: '1' :: '.' :: 'p' :: ['y']))
      = some (String.mk ('.' :: 'p' :: ['y'])) ∧
    filenameMatch (String.mk ('$' :: '1' :: '.' :: 'p' :: (['y'] ++ ['\n'])))
      = some (String.mk ('.' :: 'p' :: ['y'])) :=
  c8_amended_extension_extraction.2.2.2.2.2.2 'p' ['y'] (by decide) (by decide)

/-- C9: when the child launches, exits with code 0 and has left the temp file
holding the rewritten text, `format_text` returns exactly that text — the
result is read back from the file, not taken from the child's standard
output (which the environment does not even expose to the result). -/
theorem c9_round_trip_on_success (text rewritten : String) (command : List String)
    (env : Env) (errbytes : List Byte)
    (hlaunch : env.launch = some (0, errbytes))
    (hfile : env.fileAfterRun = some rewritten) :
    (format_text text command env).outcome = PyOutcome.ok rewritten := by
  simp [format_text, run_shell_command, hlaunch, hfile]

/-- C9 witness: a concrete zero-exit run returns the rewritten file content. -/
theorem c9_round_trip_on_success_witness :
    (format_text "T" ["fmt", "$1.py"]
        { tmpPath := "/tmp/f.py", launch := some (0, []),
          fileAfterRun := some "Trewritten" }).outcome = PyOutcome.ok "Trewritten" :=
  c9_round_trip_on_success "T" "Trewritten" ["fmt", "$1.py"]
    { tmpPath := "/tmp/f.py", launch := some (0, []), fileAfterRun := some "Trewritten" }
    [] rfl rfl

/-- C10: when the extractor finds a 1-based position `(r, c)` in the stderr
payload, the cursor-move request handed to the `goto_position` command is
exactly `(r − 1, c − 1)` in Python integer arithmetic; when it finds nothing,
no request is issued.  A parsed `(1, 1)` maps to `(0, 0)` and a pathological
parsed `(0, 0)` maps to `(−1, −1)` — the tuple `(0, 0)` is truthy, so the
`if not position` guard does not stop it. -/
theorem c10_cursor_move_request :
    (∀ (msg : List Byte) (r c : Nat),
        extract_position_with_issue msg = some (r, c) →
        point_out_issue_to_user msg = some ((r : Int) - 1, (c : Int) - 1)) ∧
    (∀ msg : List Byte, extract_position_with_issue msg = none →
        point_out_issue_to_user msg = none) ∧
    point_out_issue_to_user (strBytes "fail at 1:1") = some (0, 0) ∧
    point_out_issue_to_user (strBytes "fail at 0:0") = some (-1, -1) ∧
    point_out_issue_to_user (strBytes "unexpected failure") = none := by
  refine ⟨?_, ?_, by decide, by decide, by decide⟩
  · intro msg r c h
    unfold point_out_issue_to_user
    rw [h]
  · intro msg h
    unfold point_out_issue_to_user
    rw [h]

/-- C10 witness: the general conversion instantiated on a concrete
diagnostic. -/
theorem c10_cursor_move_request_witness :
    point_out_issue_to_user (strBytes "at 2:5") = some ((2 : Int) - 1, (5 : Int) - 1) :=
  c10_cursor_move_request.1 (strBytes "at 2:5") 2 5 (by decide)

end CustomFormatter
